import Mathlib

/-!
Shallow embedding of the proxy/VPN/Tor detection engine of
`src/app/api/visitor-info/route.ts` (function `detectProxyVPN`, lines 44-138,
and its helpers), together with theorems checking the specification's claims
about it.  JavaScript string primitives (`split`, `trim`, `toLowerCase`,
`includes`, truthiness of strings) are modelled at the character-list level so
that everything evaluates inside the kernel.
-/

namespace IpTracker

/-- JS `s.trim()`: remove leading and trailing whitespace (modelled on the
ASCII whitespace characters recognised by `Char.isWhitespace`). -/
def jsTrim (s : String) : String :=
  ⟨List.rdropWhile Char.isWhitespace (List.dropWhile Char.isWhitespace s.data)⟩

/-- Character-level worker for JS `s.split(',')`: split at every comma,
keeping empty fields, including ones produced by leading or trailing commas. -/
def splitCommaAux : List Char → List Char → List (List Char)
  | [], acc => [acc.reverse]
  | c :: rest, acc =>
    if c = ',' then acc.reverse :: splitCommaAux rest []
    else splitCommaAux rest (c :: acc)

/-- JS `s.split(',')`. -/
def jsSplitComma (s : String) : List String :=
  (splitCommaAux s.data []).map fun cs => ⟨cs⟩

/-- JS `s.toLowerCase()` (ASCII letters). -/
def jsToLower (s : String) : String :=
  ⟨s.data.map Char.toLower⟩

/-- Character-level substring test: does the second list occur inside the
first? -/
def containsSubAux (pat : List Char) : List Char → Bool
  | [] => pat.isEmpty
  | c :: rest => pat.isPrefixOf (c :: rest) || containsSubAux pat rest

/-- JS `s.includes(pat)`. -/
def jsIncludes (s pat : String) : Bool :=
  containsSubAux pat.data s.data

/-- Request headers as ordered (name, value) pairs. -/
abbrev Headers := List (String × String)

/-- `request.headers.get(name)`: HTTP header lookup is case-insensitive. -/
def headersGet (hs : Headers) (name : String) : Option String :=
  (hs.find? fun p => jsToLower p.1 == jsToLower name).map Prod.snd

/-- Settled result of the `ip-api.com` geolocation lookup (fields of the JSON
record that the engine reads; absent JSON fields are `none`, and the two
boolean flags are `false` when absent, matching JS truthiness). -/
structure GeoResult where
  country : Option String
  city : Option String
  isp : Option String
  org : Option String
  proxy : Bool
  hosting : Bool
deriving DecidableEq

/-- Settled result of the `check.torproject.org` lookup. -/
structure TorResult where
  IsTor : Bool
deriving DecidableEq

/-- The connection classifications of the verdict (the code's strings
`'Direct'`, `'Proxy/VPN'`, `'Hosting/VPS'`, `'Tor Network'`, plus the
spec's additional `ProxyChain` class). -/
inductive ConnectionType where
  | Direct
  | ProxyVPN
  | ProxyChain
  | HostingVPS
  | TorNetwork
deriving DecidableEq

/-- The confidence label (`'High'` / `'Low'`). -/
inductive Confidence where
  | High
  | Low
deriving DecidableEq

/-- One entry of `detectedHeaders` (`{ header, value }` in the code). -/
structure HeaderPair where
  header : String
  value : String
deriving DecidableEq

/-- The record returned by `detectProxyVPN` (lines 115-137, with the
`analysis` sub-object flattened; the wall-clock `processingTime` field is
outside a functional model). -/
structure DetectionVerdict where
  isLikelyProxy : Bool
  hasMultipleIPs : Bool
  isTor : Bool
  torDetectionMethod : String
  proxyHeaders : List HeaderPair
  ipChain : List String
  realIP : String
  proxyChain : List String
  isAutomated : Bool
  proxyScore : Nat
  confidence : Confidence
  connectionType : ConnectionType
  explanation : String
deriving DecidableEq

/-- Lines 47-50: the recognised proxy-indicating header names. -/
def proxyHeadersList : List String :=
  ["x-forwarded-for", "x-real-ip", "cf-connecting-ip", "true-client-ip",
   "x-forwarded-proto", "x-forwarded-host", "x-cluster-client-ip"]

/-- Lines 52-56: every recognised header present with a truthy (non-empty)
value, in the order of `proxyHeadersList`. -/
def detectedHeaders (hs : Headers) : List HeaderPair :=
  proxyHeadersList.filterMap fun name =>
    match headersGet hs name with
    | some v => if v = "" then none else some ⟨name, v⟩
    | none => none

/-- Line 60: `forwardedFor ? forwardedFor.split(',').map(ip => ip.trim()) : []`.
A JS empty string is falsy, so an empty header value also yields `[]`. -/
def jsIpChain (fwd : Option String) : List String :=
  match fwd with
  | some s => if s = "" then [] else (jsSplitComma s).map jsTrim
  | none => []

/-- The `ipChain` of a request. -/
def ipChainOf (hs : Headers) : List String :=
  jsIpChain (headersGet hs "x-forwarded-for")

/-- Line 61: `ipChain.length > 1`. -/
def hasMultipleIPsOf (hs : Headers) : Bool :=
  decide (1 < (ipChainOf hs).length)

/-- Line 62: the provisional `isLikelyProxy`. -/
def provisionalLikelyProxy (hs : Headers) : Bool :=
  decide (0 < (detectedHeaders hs).length) || hasMultipleIPsOf hs

/-- Lines 65-66: `/bot|crawler|spider|scraper/i.test(userAgent)` with
`userAgent = request.headers.get('user-agent') || ''`. -/
def isAutomatedOf (hs : Headers) : Bool :=
  ["bot", "crawler", "spider", "scraper"].any fun t =>
    jsIncludes (jsToLower ((headersGet hs "user-agent").getD "")) t

/-- Line 92: `tor?.IsTor === true` (a missing result is falsy). -/
def torCheck (tor : Option TorResult) : Bool :=
  match tor with
  | some t => t.IsTor
  | none => false

/-- Line 97: the fixed ISP-pattern token list. -/
def torPatterns : List String :=
  ["tor", "exit", "relay", "privacy foundation"]

/-- Lines 97-101: does the lower-cased `isp` or `org` field contain one of
the tokens?  (`geo.isp || ''` and `geo.org || ''` default absent fields.) -/
def torPatternMatch (g : GeoResult) : Bool :=
  torPatterns.any fun pat =>
    jsIncludes (jsToLower (g.isp.getD "")) pat ||
    jsIncludes (jsToLower (g.org.getD "")) pat

/-- Lines 92-105: the final `isTor` after the exit-list check and, failing
that, the ISP-pattern fallback (which needs a geolocation result). -/
def isTorFinal (tor : Option TorResult) (geo : Option GeoResult) : Bool :=
  if torCheck tor then true
  else
    match geo with
    | some g => torPatternMatch g
    | none => false

/-- Lines 93 and 103: the final `torDetectionMethod`. -/
def torMethodFinal (tor : Option TorResult) (geo : Option GeoResult) : String :=
  if torCheck tor then "Official Tor Exit Node List"
  else
    match geo with
    | some g => if torPatternMatch g then "ISP Pattern Analysis" else ""
    | none => ""

/-- `geo?.hosting` (undefined is falsy). -/
def geoHosting (geo : Option GeoResult) : Bool :=
  match geo with
  | some g => g.hosting
  | none => false

/-- `geo?.proxy` (undefined is falsy). -/
def geoProxy (geo : Option GeoResult) : Bool :=
  match geo with
  | some g => g.proxy
  | none => false

/-- Lines 108-111: the connection-type decision chain of the code. -/
def connectionTypeOf (isTor geoHostingFlag geoProxyFlag likelyProxy : Bool) :
    ConnectionType :=
  if isTor then .TorNetwork
  else if geoHostingFlag then .HostingVPS
  else if geoProxyFlag || likelyProxy then .ProxyVPN
  else .Direct

/-- Line 122: `ipChain[0] || ip` (both a missing element and an empty string
are falsy in JS). -/
def jsFirstOr (chain : List String) (ip : String) : String :=
  match chain.head? with
  | some s => if s = "" then ip else s
  | none => ip

/-- `detectProxyVPN` (lines 44-138) with the two network lookups replaced by
their settled results (`none` = lookup failed, timed out, or returned no
usable record). -/
def detectProxyVPN (ip : String) (hs : Headers)
    (geo : Option GeoResult) (tor : Option TorResult) : DetectionVerdict :=
  let dh := detectedHeaders hs
  let chain := ipChainOf hs
  let multi := hasMultipleIPsOf hs
  let likely := provisionalLikelyProxy hs
  let auto := isAutomatedOf hs
  let isTor := isTorFinal tor geo
  let ct := connectionTypeOf isTor (geoHosting geo) (geoProxy geo) likely
  { isLikelyProxy := likely || isTor
    hasMultipleIPs := multi
    isTor := isTor
    torDetectionMethod := torMethodFinal tor geo
    proxyHeaders := dh
    ipChain := chain
    realIP := if isTor then "Hidden by Tor Network" else jsFirstOr chain ip
    proxyChain := chain.drop 1
    isAutomated := auto
    proxyScore := dh.length + (if multi then 2 else 0) +
      (if auto then 1 else 0) + (if isTor then 5 else 0)
    confidence := if isTor || likely then .High else .Low
    connectionType := ct
    explanation :=
      if isTor then
        "Real IP cannot be determined - Tor network provides anonymity by design"
      else if ct = .Direct then "Direct connection detected"
      else "Proxy/VPN detected - real IP may be hidden" }

/-- The spec's lookup-failure taxonomy (§7). -/
inductive LookupError where
  | timeout
  | unavailable
  | malformed
deriving DecidableEq

/-- Lines 75, 82 and 85-89: `.catch(() => null)` together with
`Promise.allSettled` and `status === 'fulfilled' ? value : null` convert any
lookup failure into an absent result. -/
def settleLookup {α : Type} (r : Except LookupError α) : Option α :=
  match r with
  | .ok a => some a
  | .error _ => none

/-- The engine applied to raw lookup outcomes: each outcome first passes the
catch/allSettled boundary. -/
def detectFromOutcomes (ip : String) (hs : Headers)
    (g : Except LookupError GeoResult) (t : Except LookupError TorResult) :
    DetectionVerdict :=
  detectProxyVPN ip hs (settleLookup g) (settleLookup t)

/-- Modelled from the spec's words (§4.2 step 4), for comparison with
`connectionTypeOf`: the strict priority order including the spec's
Proxy Chain branch. -/
def specConnectionType (isTor geoHostingFlag geoProxyFlag likelyProxy multi :
    Bool) : ConnectionType :=
  if isTor then .TorNetwork
  else if geoHostingFlag then .HostingVPS
  else if geoProxyFlag || likelyProxy then .ProxyVPN
  else if !geoProxyFlag && multi then .ProxyChain
  else .Direct

/-- When the provisional proxy signal has the engine's shape
`headersMatched || multi`, the code's classification chain coincides with the
spec's chain: the spec's Proxy Chain branch is unreachable because a multiple
IP chain already makes the provisional signal true. -/
theorem connectionTypeOf_eq_spec (t h p a m : Bool) :
    connectionTypeOf t h p (a || m) = specConnectionType t h p (a || m) m := by
  cases t <;> cases h <;> cases p <;> cases a <;> cases m <;> rfl

/-- Claim C1: whenever the verdict asserts Tor (by either detection path), the
resolved real IP is the fixed sentinel and the connection type is Tor; and a
Tor lookup asserting `IsTor` always yields a Tor verdict with the official
exit-node-list method string. -/
theorem c1_tor_invariant (ip : String) (hs : Headers) (geo : Option GeoResult)
    (tor : Option TorResult) :
    ((detectProxyVPN ip hs geo tor).isTor = true →
      (detectProxyVPN ip hs geo tor).realIP = "Hidden by Tor Network" ∧
      (detectProxyVPN ip hs geo tor).connectionType = ConnectionType.TorNetwork) ∧
    (tor = some ⟨true⟩ →
      (detectProxyVPN ip hs geo tor).isTor = true ∧
      (detectProxyVPN ip hs geo tor).torDetectionMethod =
        "Official Tor Exit Node List") := by
  constructor
  · intro h
    simp only [detectProxyVPN] at h ⊢
    simp [h, connectionTypeOf]
  · rintro rfl
    simp [detectProxyVPN, isTorFinal, torCheck, torMethodFinal]

/-- Witness for `c1_tor_invariant` at a concrete input. -/
theorem c1_tor_invariant_witness :
    (detectProxyVPN "1.2.3.4" [] none (some ⟨true⟩)).realIP =
      "Hidden by Tor Network" ∧
    (detectProxyVPN "1.2.3.4" [] none (some ⟨true⟩)).connectionType =
      ConnectionType.TorNetwork ∧
    (detectProxyVPN "1.2.3.4" [] none (some ⟨true⟩)).isTor = true ∧
    (detectProxyVPN "1.2.3.4" [] none (some ⟨true⟩)).torDetectionMethod =
      "Official Tor Exit Node List" := by
  have h := c1_tor_invariant "1.2.3.4" [] none (some ⟨true⟩)
  have h2 := h.2 rfl
  have h1 := h.1 h2.1
  exact ⟨h1.1, h1.2, h2.1, h2.2⟩

/-- Claim C2: the computed connection type agrees with the spec's strict priority
chain (including its Proxy Chain branch) on every input, and a geolocation
result with both `hosting` and `proxy` set, without Tor, classifies as
Hosting/VPS. -/
theorem c2_priority_order (ip : String) (hs : Headers) (geo : Option GeoResult)
    (tor : Option TorResult) :
    (detectProxyVPN ip hs geo tor).connectionType =
      specConnectionType (isTorFinal tor geo) (geoHosting geo) (geoProxy geo)
        (provisionalLikelyProxy hs) (hasMultipleIPsOf hs) ∧
    (∀ g : GeoResult, geo = some g → g.hosting = true →
      (detectProxyVPN ip hs geo tor).isTor = false →
      (detectProxyVPN ip hs geo tor).connectionType =
        ConnectionType.HostingVPS) := by
  constructor
  · show connectionTypeOf _ _ _ (provisionalLikelyProxy hs) = _
    rw [provisionalLikelyProxy]
    exact connectionTypeOf_eq_spec _ _ _ _ _
  · rintro g rfl hh ht
    simp only [detectProxyVPN] at ht ⊢
    simp [connectionTypeOf, ht, geoHosting, hh]

/-- Witness for `c2_priority_order` at a concrete input with
`hosting = true` and `proxy = true`. -/
theorem c2_priority_order_witness :
    (detectProxyVPN "1.2.3.4" []
      (some ⟨none, none, none, none, true, true⟩) none).connectionType =
      ConnectionType.HostingVPS :=
  (c2_priority_order "1.2.3.4" []
    (some ⟨none, none, none, none, true, true⟩) none).2
    ⟨none, none, none, none, true, true⟩ rfl rfl (by decide)

/-- Claim C5: the score is the matched-header count plus 2 for a multiple-IP
chain, 1 for an automated client and 5 for Tor; confidence is High exactly
when Tor or the (folded) likely-proxy signal holds. -/
theorem c5_score_confidence (ip : String) (hs : Headers)
    (geo : Option GeoResult) (tor : Option TorResult) :
    (detectProxyVPN ip hs geo tor).proxyScore =
      (detectProxyVPN ip hs geo tor).proxyHeaders.length +
      (if (detectProxyVPN ip hs geo tor).hasMultipleIPs then 2 else 0) +
      (if (detectProxyVPN ip hs geo tor).isAutomated then 1 else 0) +
      (if (detectProxyVPN ip hs geo tor).isTor then 5 else 0) ∧
    ((detectProxyVPN ip hs geo tor).confidence = Confidence.High ↔
      ((detectProxyVPN ip hs geo tor).isTor ||
        (detectProxyVPN ip hs geo tor).isLikelyProxy) = true) := by
  constructor
  · rfl
  · simp only [detectProxyVPN]
    cases h1 : isTorFinal tor geo <;> cases h2 : provisionalLikelyProxy hs <;>
      simp

/-- Claim C7: every lookup failure (timeout, network or parse failure, malformed
shape) passes the catch/allSettled boundary and degrades to an absent result
for that source only; the engine is a total function on settled outcomes, so
no error escapes to the caller. -/
theorem c7_lookup_failure_degrades (ip : String) (hs : Headers)
    (g : Except LookupError GeoResult) (t : Except LookupError TorResult)
    (e : LookupError) :
    detectFromOutcomes ip hs (Except.error e) t =
      detectProxyVPN ip hs none (settleLookup t) ∧
    detectFromOutcomes ip hs g (Except.error e) =
      detectProxyVPN ip hs (settleLookup g) none ∧
    detectFromOutcomes ip hs g t =
      detectProxyVPN ip hs (settleLookup g) (settleLookup t) :=
  ⟨rfl, rfl, rfl⟩

/-- Claim C9: the three whitespace variants of the same forwarded-for chain all
parse to the same two-entry chain. -/
theorem c9_whitespace_invariance :
    jsIpChain (some "1.1.1.1, 2.2.2.2") = ["1.1.1.1", "2.2.2.2"] ∧
    jsIpChain (some "1.1.1.1,2.2.2.2") = ["1.1.1.1", "2.2.2.2"] ∧
    jsIpChain (some " 1.1.1.1 , 2.2.2.2 ") = ["1.1.1.1", "2.2.2.2"] := by
  refine ⟨by decide, by decide, by decide⟩

/-- Claim C3 counterexample: on the end-to-end scenario of the claim (one
forwarded-for header carrying a two-address chain, no lookup results, a plain
browser user agent) the code does not classify as Proxy Chain — no branch of
the code ever produces that class. -/
theorem c3_scenario_counterexample :
    (detectProxyVPN "203.0.113.5"
      [("x-forwarded-for", "203.0.113.5, 10.0.0.1"),
       ("user-agent", "Mozilla/5.0")] none none).connectionType ≠
      ConnectionType.ProxyChain := by
  decide

/-- Claim C3 amended: the scenario's verdict is exactly as claimed except that
the connection type is Proxy/VPN (the multiple-IP chain makes the provisional
proxy signal true, which the code classifies as Proxy/VPN). -/
theorem c3_scenario_amended :
    (detectProxyVPN "203.0.113.5"
      [("x-forwarded-for", "203.0.113.5, 10.0.0.1"),
       ("user-agent", "Mozilla/5.0")] none none).proxyHeaders =
      [⟨"x-forwarded-for", "203.0.113.5, 10.0.0.1"⟩] ∧
    (detectProxyVPN "203.0.113.5"
      [("x-forwarded-for", "203.0.113.5, 10.0.0.1"),
       ("user-agent", "Mozilla/5.0")] none none).ipChain =
      ["203.0.113.5", "10.0.0.1"] ∧
    (detectProxyVPN "203.0.113.5"
      [("x-forwarded-for", "203.0.113.5, 10.0.0.1"),
       ("user-agent", "Mozilla/5.0")] none none).hasMultipleIPs = true ∧
    (detectProxyVPN "203.0.113.5"
      [("x-forwarded-for", "203.0.113.5, 10.0.0.1"),
       ("user-agent", "Mozilla/5.0")] none none).connectionType =
      ConnectionType.ProxyVPN ∧
    (detectProxyVPN "203.0.113.5"
      [("x-forwarded-for", "203.0.113.5, 10.0.0.1"),
       ("user-agent", "Mozilla/5.0")] none none).realIP = "203.0.113.5" ∧
    (detectProxyVPN "203.0.113.5"
      [("x-forwarded-for", "203.0.113.5, 10.0.0.1"),
       ("user-agent", "Mozilla/5.0")] none none).proxyChain = ["10.0.0.1"] ∧
    (detectProxyVPN "203.0.113.5"
      [("x-forwarded-for", "203.0.113.5, 10.0.0.1"),
       ("user-agent", "Mozilla/5.0")] none none).proxyScore = 3 ∧
    (detectProxyVPN "203.0.113.5"
      [("x-forwarded-for", "203.0.113.5, 10.0.0.1"),
       ("user-agent", "Mozilla/5.0")] none none).confidence =
      Confidence.High := by
  refine ⟨by decide, by decide, by decide, by decide, by decide, by decide,
    by decide, by decide⟩

/-- Claim C4 counterexample: `x-originating-ip` belongs to the claim's
twelve-name recognized set, but the code's list stops at seven names, so a
request carrying only that header matches nothing. -/
theorem c4_recognized_set_counterexample :
    (detectProxyVPN "1.2.3.4" [("x-originating-ip", "203.0.113.9")]
      none none).proxyHeaders = [] := by
  decide

/-- Claim C4 amended: the matched headers are exactly the headers of the code's
seven-name recognized list (`proxyHeadersList`) that are present (by
case-insensitive lookup) with a non-empty value. -/
theorem c4_matched_headers (ip : String) (hs : Headers) (geo : Option GeoResult)
    (tor : Option TorResult) (name v : String) :
    (⟨name, v⟩ : HeaderPair) ∈ (detectProxyVPN ip hs geo tor).proxyHeaders ↔
      name ∈ proxyHeadersList ∧ headersGet hs name = some v ∧ v ≠ "" := by
  show (⟨name, v⟩ : HeaderPair) ∈ detectedHeaders hs ↔ _
  rw [detectedHeaders, List.mem_filterMap]
  constructor
  · rintro ⟨a, ha, hf⟩
    cases hg : headersGet hs a with
    | none => rw [hg] at hf; simp at hf
    | some w =>
      rw [hg] at hf
      by_cases hw : w = ""
      · simp [hw] at hf
      · simp only [if_neg hw, Option.some.injEq, HeaderPair.mk.injEq] at hf
        obtain ⟨rfl, rfl⟩ := hf
        exact ⟨ha, hg, hw⟩
  · rintro ⟨hn, hget, hv⟩
    exact ⟨name, hn, by rw [hget]; simp [hv]⟩

/-- Claim C6: with the Tor lookup absent or not asserting Tor, and a geolocation
result present, the verdict asserts Tor exactly when the lower-cased ISP or
organization field contains one of the four fixed tokens, and a match yields
the ISP-pattern-analysis method string. -/
theorem c6_isp_fallback (ip : String) (hs : Headers) (g : GeoResult)
    (tor : Option TorResult) (htor : tor = none ∨ tor = some ⟨false⟩) :
    ((detectProxyVPN ip hs (some g) tor).isTor = true ↔
      (["tor", "exit", "relay", "privacy foundation"].any fun pat =>
        jsIncludes (jsToLower (g.isp.getD "")) pat ||
        jsIncludes (jsToLower (g.org.getD "")) pat) = true) ∧
    (torPatternMatch g = true →
      (detectProxyVPN ip hs (some g) tor).torDetectionMethod =
        "ISP Pattern Analysis") := by
  have hc : torCheck tor = false := by rcases htor with rfl | rfl <;> rfl
  constructor
  · simp [detectProxyVPN, isTorFinal, hc, torPatternMatch, torPatterns]
  · intro hm
    simp [detectProxyVPN, torMethodFinal, hc, hm]

/-- Witness for `c6_isp_fallback` at a concrete geolocation record whose ISP
name contains the token `tor`. -/
theorem c6_isp_fallback_witness :
    (detectProxyVPN "1.2.3.4" []
      (some ⟨none, none, some "Tor Exit Node GmbH", none, false, false⟩)
      none).isTor = true ∧
    (detectProxyVPN "1.2.3.4" []
      (some ⟨none, none, some "Tor Exit Node GmbH", none, false, false⟩)
      none).torDetectionMethod = "ISP Pattern Analysis" := by
  have h := c6_isp_fallback "1.2.3.4" []
    ⟨none, none, some "Tor Exit Node GmbH", none, false, false⟩ none
    (Or.inl rfl)
  exact ⟨h.1.mpr (by decide), h.2 (by decide)⟩

/-- Dropping leading matches is stable under a subsequent trailing drop: the
trailing drop only removes a suffix, so it cannot expose a new leading match. -/
theorem dropWhile_rdropWhile_dropWhile (p : Char → Bool) (l : List Char) :
    List.dropWhile p (List.rdropWhile p (List.dropWhile p l)) =
      List.rdropWhile p (List.dropWhile p l) := by
  cases hz : List.rdropWhile p (List.dropWhile p l) with
  | nil => simp
  | cons c cs =>
    have hpref : c :: cs <+: List.dropWhile p l := by
      rw [← hz]; exact List.rdropWhile_prefix p _
    obtain ⟨r, hr⟩ := hpref
    have hne : List.dropWhile p l ≠ [] := by
      rw [← hr]; simp
    have h1 : (List.dropWhile p l).head hne = c := by
      have h2 : List.dropWhile p l = c :: (cs ++ r) := hr.symm
      simp [h2]
    have hc : p c = false := h1 ▸ List.head_dropWhile_not p l hne
    rw [List.dropWhile_cons]
    simp [hc]

/-- JS `trim` is idempotent. -/
theorem jsTrim_idem (s : String) : jsTrim (jsTrim s) = jsTrim s := by
  simp only [jsTrim]
  rw [String.ext_iff]
  show List.rdropWhile Char.isWhitespace (List.dropWhile Char.isWhitespace
      (List.rdropWhile Char.isWhitespace
        (List.dropWhile Char.isWhitespace s.data))) =
    List.rdropWhile Char.isWhitespace (List.dropWhile Char.isWhitespace s.data)
  rw [dropWhile_rdropWhile_dropWhile, List.rdropWhile_idempotent]

/-- Claim C8 counterexample: a trailing comma does produce an empty entry — the
claim that leading/trailing commas yield no empty entries fails on the code,
which splits on commas and trims but never filters. -/
theorem c8_no_empty_entries_counterexample :
    "" ∈ jsIpChain (some "1.1.1.1,") := by
  decide

/-- Claim C8 amended: every entry of the parsed chain is a trimmed field (extra
whitespace around entries is tolerated and removed; entries are otherwise kept
verbatim with no address validation), but empty fields produced by
leading/trailing commas are kept as empty-string entries. -/
theorem c8_parse_amended :
    (∀ (fwd : Option String), ∀ e ∈ jsIpChain fwd, jsTrim e = e) ∧
    "" ∈ jsIpChain (some ",1.1.1.1") := by
  constructor
  · intro fwd e he
    cases fwd with
    | none => simp [jsIpChain] at he
    | some s =>
      by_cases hs : s = ""
      · simp [jsIpChain, hs] at he
      · simp only [jsIpChain, if_neg hs, List.mem_map] at he
        obtain ⟨x, hx, rfl⟩ := he
        exact jsTrim_idem x
  · decide

/-- Witness for `c8_parse_amended` at a concrete chain entry. -/
theorem c8_parse_amended_witness :
    jsTrim "1.1.1.1" = "1.1.1.1" ∧
    "1.1.1.1" ∈ jsIpChain (some " 1.1.1.1 ,2.2.2.2") :=
  ⟨c8_parse_amended.1 (some " 1.1.1.1 ,2.2.2.2") "1.1.1.1" (by decide),
    by decide⟩

/-- A character list ending in a comma splits into fields of which the last
is empty. -/
theorem nil_mem_splitCommaAux_trailing (l : List Char) :
    ∀ acc, [] ∈ splitCommaAux (l ++ [',']) acc := by
  induction l with
  | nil => intro acc; simp [splitCommaAux]
  | cons c cs ih =>
    intro acc
    by_cases hc : c = ','
    · subst hc
      simp only [List.cons_append, splitCommaAux, if_pos rfl]
      exact List.mem_cons_of_mem _ (ih [])
    · simp only [List.cons_append, splitCommaAux, if_neg hc]
      exact ih (c :: acc)

/-- A character list starting with a comma splits into an empty first field
followed by the split of the rest. -/
theorem splitCommaAux_leading (l : List Char) :
    splitCommaAux (',' :: l) [] = [] :: splitCommaAux l [] := by
  simp [splitCommaAux]

/-- Claim C10: the split keeps empty entries — any forwarded-for value with a
trailing or leading comma contributes an empty-string chain entry; a
single-address value with a trailing comma therefore counts as a multiple-IP
chain and scores the +2 chain term; and a verdict whose chain starts with the
empty string resolves the real IP to the boundary-supplied candidate. -/
theorem c10_empty_entries_kept (l : List Char) (ip : String) (hs : Headers)
    (geo : Option GeoResult) (tor : Option TorResult) :
    "" ∈ jsIpChain (some ⟨l ++ [',']⟩) ∧
    "" ∈ jsIpChain (some ⟨',' :: l⟩) ∧
    ((detectProxyVPN ip hs geo tor).ipChain.head? = some "" →
      (detectProxyVPN ip hs geo tor).isTor = false →
      (detectProxyVPN ip hs geo tor).realIP = ip) ∧
    (detectProxyVPN "9.9.9.9" [("x-forwarded-for", "1.1.1.1,")] none
      none).hasMultipleIPs = true ∧
    (detectProxyVPN "9.9.9.9" [("x-forwarded-for", "1.1.1.1,")] none
      none).proxyScore = 3 := by
  refine ⟨?_, ?_, ?_, by decide, by decide⟩
  · have hne : (⟨l ++ [',']⟩ : String) ≠ "" := by
      intro h
      have h2 : l ++ [','] = [] := String.ext_iff.mp h
      simp at h2
    simp only [jsIpChain, if_neg hne, List.mem_map]
    refine ⟨⟨[]⟩, ?_, by decide⟩
    exact List.mem_map.mpr ⟨[], nil_mem_splitCommaAux_trailing l [], rfl⟩
  · have hne : (⟨',' :: l⟩ : String) ≠ "" := by
      intro h
      have h2 : ',' :: l = [] := String.ext_iff.mp h
      simp at h2
    simp only [jsIpChain, if_neg hne, List.mem_map]
    refine ⟨⟨[]⟩, ?_, by decide⟩
    show (⟨[]⟩ : String) ∈ (splitCommaAux (',' :: l) []).map fun cs =>
      (⟨cs⟩ : String)
    rw [splitCommaAux_leading]
    exact List.mem_map.mpr ⟨[], List.mem_cons_self _ _, rfl⟩
  · intro h1 h2
    simp only [detectProxyVPN] at h1 h2 ⊢
    simp only [h2, Bool.false_eq_true, if_false]
    rw [jsFirstOr, h1]
    simp

/-- Witness for `c10_empty_entries_kept` at a concrete input with a leading
comma in the forwarded-for value. -/
theorem c10_empty_entries_kept_witness :
    "" ∈ jsIpChain (some ⟨['1'] ++ [',']⟩) ∧
    (detectProxyVPN "9.9.9.9" [("x-forwarded-for", ",1.2.3.4")] none
      none).realIP = "9.9.9.9" := by
  have h := c10_empty_entries_kept ['1'] "9.9.9.9"
    [("x-forwarded-for", ",1.2.3.4")] none none
  exact ⟨h.1, h.2.2.1 (by decide) (by decide)⟩

end IpTracker
